import Mathlib

/-!
Verification of the transactional core of the Stride events platform:
coupon/fee resolution, the payment-order lifecycle with idempotent webhook
reconciliation, the append-only audit trail, and the student-registration
endpoint's Stride ID error handling.

Amounts are integer minor-currency units, modelled as `Int`; timestamps are
modelled as `Int`.
-/

/-- Lower-cases one ASCII character code (65..90 mapped to 97..122); models
the case folding used for case-insensitive coupon-code comparison. -/
def lowerCode (n : Nat) : Nat :=
  if 65 ≤ n ∧ n ≤ 90 then n + 32 else n

/-- Character codes of a string, case-folded. -/
def normCodes (s : String) : List Nat :=
  s.data.map (fun c => lowerCode c.toNat)

/-- Case-insensitive exact string equality, via case-folded character codes. -/
def sameCodeCI (a b : String) : Bool :=
  normCodes a == normCodes b

/-- Discount kinds of a coupon: percentage, fixed amount, or full waiver. -/
inductive DiscountKind
  | percentage (pct : Int)
  | fixed (amount : Int)
  | fullWaiver
  deriving DecidableEq, Repr

/-- Modelled from the spec: a Coupon has a unique case-insensitive code, a
discount kind, an applicability filter (registration type, event, validity
window, max redemptions) and a current redemption count.  An empty
`allowedTypes`/`allowedEvents` list means no restriction on that axis. -/
structure Coupon where
  code : String
  kind : DiscountKind
  validFrom : Int
  validTo : Int
  allowedTypes : List String
  allowedEvents : List Nat
  maxRedemptions : Nat
  redemptionCount : Nat
  deriving DecidableEq, Repr

/-- Coupon resolution errors, surfaced verbatim to the user. -/
inductive CouponError
  | NotFound
  | Expired
  | NotApplicable
  | Exhausted
  deriving DecidableEq, Repr

/-- Result of a successful coupon resolution. -/
structure ResolvedFee where
  finalAmount : Int
  discount : Int
  couponApplied : Option String
  deriving DecidableEq, Repr

/-- Context of a resolution request: registration type, event, current time. -/
structure ResolveContext where
  registrationType : String
  eventId : Nat
  now : Int
  deriving DecidableEq, Repr

/-- Validity-window check: now lies between the coupon's start and end. -/
def withinWindow (c : Coupon) (now : Int) : Bool :=
  decide (c.validFrom ≤ now ∧ now ≤ c.validTo)

/-- Applicability filter: registration type and event must match. -/
def applicableTo (c : Coupon) (ctx : ResolveContext) : Bool :=
  (c.allowedTypes.isEmpty || c.allowedTypes.contains ctx.registrationType) &&
    (c.allowedEvents.isEmpty || c.allowedEvents.contains ctx.eventId)

/-- Redemption-cap check: the cap has already been reached. -/
def capReached (c : Coupon) : Bool :=
  decide (c.maxRedemptions ≤ c.redemptionCount)

/-- Discount computation per kind: percentage is floor(base*pct/100), fixed
is capped at the base amount, full waiver is the whole base amount. -/
def discountOf (k : DiscountKind) (baseAmount : Int) : Int :=
  match k with
  | .percentage pct => baseAmount * pct / 100
  | .fixed f => min f baseAmount
  | .fullWaiver => baseAmount

/-- Final amount is base minus discount, clamped to be non-negative. -/
def clampedFinal (baseAmount d : Int) : Int :=
  max (baseAmount - d) 0

/-- Case-insensitive exact-match lookup of a coupon code in the store. -/
def lookupCoupon (coupons : List Coupon) (code : String) : Option Coupon :=
  coupons.find? (fun c => sameCodeCI c.code code)

/-- Modelled from the spec: the Coupon Resolver.  `resolve` is pure; the
"school" registration type bypasses payment entirely (amount forced to 0)
regardless of coupon; a null/empty code resolves to the base amount; the
checks run in order - lookup, validity window, applicability, redemption
cap - short-circuiting on the first failure.  The repository documents this
component (PROJECT_STATUS, BACKEND_SETUP `validate_and_apply_coupon`) but
ships no implementation under src/. -/
def resolve (coupons : List Coupon) (code : Option String) (baseAmount : Int)
    (ctx : ResolveContext) : Except CouponError ResolvedFee :=
  if ctx.registrationType == "school" then
    .ok { finalAmount := 0, discount := baseAmount, couponApplied := none }
  else
    match code with
    | none => .ok { finalAmount := baseAmount, discount := 0, couponApplied := none }
    | some s =>
      if s == "" then
        .ok { finalAmount := baseAmount, discount := 0, couponApplied := none }
      else
        match lookupCoupon coupons s with
        | none => .error .NotFound
        | some c =>
          if !withinWindow c ctx.now then .error .Expired
          else if !applicableTo c ctx then .error .NotApplicable
          else if capReached c then .error .Exhausted
          else
            let d := discountOf c.kind baseAmount
            .ok { finalAmount := clampedFinal baseAmount d, discount := d,
                  couponApplied := some c.code }

/-- Gateway error taxonomy: `Unavailable` is retryable, the rest terminal. -/
inductive GatewayError
  | Unavailable
  | Rejected
  | InvalidSignature
  | SignatureMismatch
  deriving DecidableEq, Repr

/-- Payment-order lifecycle states. -/
inductive OrderStatus
  | Created
  | AwaitingPayment
  | Confirmed
  | Failed
  | Expired
  deriving DecidableEq, Repr

/-- Terminal states admit no further transition for that order instance. -/
def OrderStatus.isTerminal : OrderStatus → Bool
  | .Confirmed => true
  | .Failed => true
  | .Expired => true
  | _ => false

/-- Modelled from the spec: a PaymentOrder is one payment attempt of a
registration, with its amount in minor units, lifecycle status, gateway
order reference and the coupon applied at resolution time. -/
structure PaymentOrder where
  registrationId : Nat
  attempt : Nat
  amount : Int
  status : OrderStatus
  gatewayOrderRef : Option String
  couponApplied : Option String
  deriving DecidableEq, Repr

/-- Structured detail blob of a payment audit entry. -/
structure PaymentDetail where
  amount : Int
  coupon : Option String
  deriving DecidableEq, Repr

/-- Modelled from the spec: an immutable AuditLogEntry with event type,
action, outcome, actor, resource reference and structured detail. -/
structure AuditLogEntry where
  eventType : String
  action : String
  outcome : String
  actor : String
  resourceType : String
  resourceId : Nat
  detail : Option PaymentDetail
  deriving DecidableEq, Repr

/-- Audit entry recorded when an order is confirmed (payment success or
zero-amount confirmation). -/
def confirmAuditEntry (o : PaymentOrder) : AuditLogEntry :=
  { eventType := "payment", action := "confirm", outcome := "success",
    actor := "system", resourceType := "payment_order",
    resourceId := o.registrationId,
    detail := some { amount := o.amount, coupon := o.couponApplied } }

/-- Audit entry recorded for a duplicate delivery against an already
terminal order: tagged "duplicate", no state change. -/
def duplicateAuditEntry (o : PaymentOrder) : AuditLogEntry :=
  { eventType := "webhook", action := "duplicate", outcome := "success",
    actor := "system", resourceType := "payment_order",
    resourceId := o.registrationId, detail := none }

/-- Audit entry recorded when order creation at the gateway fails. -/
def gatewayFailureAuditEntry (regId : Nat) : AuditLogEntry :=
  { eventType := "payment", action := "create_order", outcome := "failure",
    actor := "system", resourceType := "payment_order",
    resourceId := regId, detail := none }

/-- Audit entry recorded when an order reaches AwaitingPayment. -/
def orderCreatedAuditEntry (o : PaymentOrder) : AuditLogEntry :=
  { eventType := "payment", action := "create_order", outcome := "success",
    actor := "system", resourceType := "payment_order",
    resourceId := o.registrationId,
    detail := some { amount := o.amount, coupon := o.couponApplied } }

/-- Modelled from the spec: bounded caller-side retry around the gateway's
`createOrder`.  `resp k` is the gateway's answer to the k-th attempt;
`budget` is the number of remaining retries.  Only `Unavailable` is
retried; the second component counts the calls made. -/
def createOrderWithRetry (resp : Nat → Except GatewayError String) (k : Nat) :
    Nat → Except GatewayError String × Nat
  | 0 => (resp k, 1)
  | budget + 1 =>
    match resp k with
    | .ok r => (.ok r, 1)
    | .error .Unavailable =>
      let (res, n) := createOrderWithRetry resp (k + 1) budget
      (res, n + 1)
    | .error e => (.error e, 1)

/-- Result of starting a payment attempt: the persisted order store, the
order created for this attempt (if any), the status transitions taken, the
number of gateway calls made, and the audit entries recorded. -/
structure StartResult where
  store : List PaymentOrder
  order : Option PaymentOrder
  transitions : List (OrderStatus × OrderStatus)
  gatewayCalls : Nat
  audit : List AuditLogEntry
  deriving Repr

/-- Modelled from the spec: the order-creation entry point of the Payment
Order State Machine.  A zero resolved amount short-circuits Created to
Confirmed synchronously with no processor call; a positive amount calls
`createOrder` with bounded retries and persists the order only on success,
so a failing attempt leaves the store unchanged. -/
def startPayment (store : List PaymentOrder) (regId att : Nat)
    (resolved : ResolvedFee) (resp : Nat → Except GatewayError String)
    (retries : Nat) : StartResult :=
  if resolved.finalAmount = 0 then
    let o : PaymentOrder :=
      { registrationId := regId, attempt := att, amount := 0,
        status := .Confirmed, gatewayOrderRef := none,
        couponApplied := resolved.couponApplied }
    { store := store ++ [o], order := some o,
      transitions := [(.Created, .Confirmed)], gatewayCalls := 0,
      audit := [confirmAuditEntry o] }
  else
    match createOrderWithRetry resp 0 retries with
    | (.ok ref, n) =>
      let o : PaymentOrder :=
        { registrationId := regId, attempt := att,
          amount := resolved.finalAmount, status := .AwaitingPayment,
          gatewayOrderRef := some ref,
          couponApplied := resolved.couponApplied }
      { store := store ++ [o], order := some o,
        transitions := [(.Created, .AwaitingPayment)], gatewayCalls := n,
        audit := [orderCreatedAuditEntry o] }
    | (.error _, n) =>
      { store := store, order := none, transitions := [], gatewayCalls := n,
        audit := [gatewayFailureAuditEntry regId] }

/-- Webhook event kinds reported by a gateway. -/
inductive WebhookKind
  | success
  | failure
  | refund
  deriving DecidableEq, Repr

/-- A verified, typed webhook event as produced by `parseWebhook`. -/
structure WebhookEvent where
  kind : WebhookKind
  orderRef : String
  paymentRef : String
  amount : Int
  deriving DecidableEq, Repr

/-- The event references this order's gateway order reference. -/
def matchesOrder (ev : WebhookEvent) (o : PaymentOrder) : Bool :=
  o.gatewayOrderRef == some ev.orderRef

/-- Increments the redemption count of every coupon whose code matches,
case-insensitively. -/
def incrRedemption (code : String) (cs : List Coupon) : List Coupon :=
  cs.map (fun c =>
    if sameCodeCI c.code code then
      { c with redemptionCount := c.redemptionCount + 1 }
    else c)

/-- Applies the coupon-count increment tied to an order's confirmation, if
a coupon was applied to the order. -/
def applyCouponIncrement (o : PaymentOrder) (cs : List Coupon) : List Coupon :=
  match o.couponApplied with
  | none => cs
  | some code => incrRedemption code cs

/-- State seen by the Webhook Reconciler: the order being reconciled, the
coupon store, the owning registration's confirmation flag, and the audit
trail. -/
structure ReconcilerState where
  order : PaymentOrder
  coupons : List Coupon
  registrationConfirmed : Bool
  audit : List AuditLogEntry
  deriving Repr

/-- Modelled from the spec: the Webhook Reconciler driving the state
machine.  A verified success event against an AwaitingPayment order
transitions it to Confirmed, atomically increments the applied coupon's
redemption count and marks the registration confirmed; any later delivery
observes a terminal state, changes nothing, and is audited as a duplicate.
Events that do not reference the order are ignored unchanged. -/
def deliverWebhook (ev : WebhookEvent) (s : ReconcilerState) : ReconcilerState :=
  if matchesOrder ev s.order && (ev.kind == .success) then
    if s.order.status == .AwaitingPayment then
      { order := { s.order with status := .Confirmed },
        coupons := applyCouponIncrement s.order s.coupons,
        registrationConfirmed := true,
        audit := s.audit ++ [confirmAuditEntry s.order] }
    else
      { s with audit := s.audit ++ [duplicateAuditEntry s.order] }
  else s

/-- Events consumed by the per-order state machine. -/
inductive MachineEvent
  | orderCreated (ref : String)
  | zeroAmount
  | verifiedSuccess
  | verifiedFailure
  | signatureMismatch
  | expired
  deriving DecidableEq, Repr

/-- Modelled from the spec: the per-order transition function of the
Payment Order State Machine.  `none` means no transition applies (the event
is a safe no-op for that state); terminal states admit no transition. -/
def stepOrder (o : PaymentOrder) (ev : MachineEvent) : Option PaymentOrder :=
  match o.status, ev with
  | .Created, .orderCreated ref =>
    some { o with status := .AwaitingPayment, gatewayOrderRef := some ref }
  | .Created, .zeroAmount =>
    if o.amount = 0 then some { o with status := .Confirmed } else none
  | .AwaitingPayment, .verifiedSuccess => some { o with status := .Confirmed }
  | .AwaitingPayment, .verifiedFailure => some { o with status := .Failed }
  | .AwaitingPayment, .signatureMismatch => some { o with status := .Failed }
  | .AwaitingPayment, .expired => some { o with status := .Expired }
  | _, _ => none

/-- The payment orders of one registration, newest first. -/
structure RegOrders where
  orders : List PaymentOrder
  deriving Repr

/-- Number of orders of the registration in a non-terminal state. -/
def activeCount (ro : RegOrders) : Nat :=
  ro.orders.countP (fun o => !o.status.isTerminal)

/-- Modelled from the spec: a registration may open a new payment attempt
only after every prior order reached a terminal non-Confirmed state. -/
def canOpenAttempt (ro : RegOrders) : Bool :=
  ro.orders.all (fun o => o.status == .Failed || o.status == .Expired)

/-- Opens a new attempt (a fresh order in state Created) when allowed. -/
def openAttempt (ro : RegOrders) (o : PaymentOrder) : Option RegOrders :=
  if canOpenAttempt ro && (o.status == .Created) then
    some { orders := o :: ro.orders }
  else none

/-- Applies a machine event to the i-th order of the registration; events
with no applicable transition leave the orders unchanged. -/
def applyOrderEvent (ro : RegOrders) (i : Nat) (ev : MachineEvent) : RegOrders :=
  match ro.orders.get? i with
  | none => ro
  | some o =>
    match stepOrder o ev with
    | none => ro
    | some o2 => { orders := ro.orders.set i o2 }

/-- Outcome of an audit write: stored durably, or escalated to the
dead-letter sink after bounded retries. -/
inductive AuditOutcome
  | stored
  | deadLettered
  deriving DecidableEq, Repr

/-- Modelled from the spec: the Audit Log Service's `record` call.
`sink k` tells whether the k-th storage attempt succeeds; after the retry
budget is exhausted the entry escalates to the dead-letter sink, and the
failure is never raised back to the business operation. -/
def recordWithRetry (sink : Nat → Bool) (k : Nat) : Nat → AuditOutcome
  | 0 => if sink k then .stored else .deadLettered
  | budget + 1 => if sink k then .stored else recordWithRetry sink (k + 1) budget

/-- Result of confirming a payment together with its audit write. -/
structure ConfirmResult where
  order : PaymentOrder
  registrationConfirmed : Bool
  auditOutcome : AuditOutcome
  deadLetters : List AuditLogEntry
  deriving Repr

/-- Modelled from the spec: the Confirmed transition followed by the audit
write.  The business outcome is computed first and is never rolled back by
the audit write; a failed write only moves the entry to the dead-letter
sink. -/
def confirmWithAudit (o : PaymentOrder) (sink : Nat → Bool) (retries : Nat) :
    ConfirmResult :=
  let o2 := { o with status := OrderStatus.Confirmed }
  match recordWithRetry sink 0 retries with
  | .stored =>
    { order := o2, registrationConfirmed := true, auditOutcome := .stored,
      deadLetters := [] }
  | .deadLettered =>
    { order := o2, registrationConfirmed := true,
      auditOutcome := .deadLettered, deadLetters := [confirmAuditEntry o] }


/-- Result of a `create_stride_user` call as observed by the registration
endpoint: success with a user id, an HTTP status error, or a timeout. -/
inductive StrideCallResult
  | ok (userId : String)
  | httpStatusError (statusCode : Nat)
  | timeoutError
  deriving DecidableEq, Repr

/-- Whether the Stride ID call failed. -/
def StrideCallResult.isErr : StrideCallResult → Bool
  | .ok _ => false
  | _ => true

/-- The StudentRegistration row created by the endpoint. -/
structure StudentRegistrationRow where
  strideUserId : Option String
  registrationCode : String
  status : String
  deriving DecidableEq, Repr

/-- Outcome of the registration endpoint: the row created (if any), the
HTTP error raised (if any), and the payment orders created alongside. -/
structure RegisterOutcome where
  registration : Option StudentRegistrationRow
  httpError : Option Nat
  ordersCreated : List PaymentOrder
  deriving DecidableEq, Repr

/-- Embeds `register_student` from src/unnamed/part_000 lines 77-106: the
Stride ID call is wrapped in `try/except Exception`, so every failure is
swallowed and the row is created with `stride_user_id = None`; the row's
status is set to "confirmed" unconditionally and no payment order is
created, whatever the fee. -/
def register_student (strideResult : StrideCallResult) (regCode : String)
    (baseFee : Int) : RegisterOutcome :=
  let _ := baseFee
  let sid : Option String :=
    match strideResult with
    | .ok uid => some uid
    | _ => none
  { registration := some
      { strideUserId := sid, registrationCode := regCode,
        status := "confirmed" },
    httpError := none, ordersCreated := [] }

/-- Embeds the Stride ID error-handling policy from src/unnamed/part_000
lines 300-319: HTTP 409 (user exists) and any other HTTP status error are
logged and registration continues without a Stride ID; HTTP 429 raises
`HTTPException(status_code=503)`, aborting the registration; a timeout is
logged and registration continues. -/
def register_student_stride_policy (strideResult : StrideCallResult)
    (regCode : String) (baseFee : Int) : RegisterOutcome :=
  let _ := baseFee
  let row (sid : Option String) : StudentRegistrationRow :=
    { strideUserId := sid, registrationCode := regCode, status := "confirmed" }
  match strideResult with
  | .ok uid =>
    { registration := some (row (some uid)), httpError := none,
      ordersCreated := [] }
  | .httpStatusError n =>
    if n = 429 then
      { registration := none, httpError := some 503, ordersCreated := [] }
    else
      { registration := some (row none), httpError := none, ordersCreated := [] }
  | .timeoutError =>
    { registration := some (row none), httpError := none, ordersCreated := [] }

/-- The KEEPSTRIDING full-waiver coupon of the repository's documentation. -/
def keepStriding : Coupon :=
  { code := "KEEPSTRIDING", kind := .fullWaiver, validFrom := 0,
    validTo := 1000000, allowedTypes := [], allowedEvents := [],
    maxRedemptions := 100000, redemptionCount := 0 }

/-- The EARLYBIRD 50% coupon of the repository's documentation. -/
def earlyBird : Coupon :=
  { code := "EARLYBIRD", kind := .percentage 50, validFrom := 0,
    validTo := 1000000, allowedTypes := ["student"], allowedEvents := [],
    maxRedemptions := 100000, redemptionCount := 0 }

/-- A concrete coupon store used by scenario theorems and witnesses. -/
def demoCoupons : List Coupon := [keepStriding, earlyBird]

/-- A concrete student resolution context. -/
def studentCtx : ResolveContext :=
  { registrationType := "student", eventId := 1, now := 5 }

/-- A concrete school resolution context. -/
def schoolCtx : ResolveContext :=
  { registrationType := "school", eventId := 1, now := 5 }

/-- A percentage discount of at most 100 percent never exceeds the base. -/
theorem pct_discount_le_base (base pct : Int) (hb : 0 ≤ base) (h0 : 0 ≤ pct)
    (h100 : pct ≤ 100) : base * pct / 100 ≤ base := by
  have h1 : base * pct ≤ base * 100 := by nlinarith
  omega

/-- Every successful resolution yields a non-negative final amount. -/
theorem resolve_ok_nonneg (coupons : List Coupon) (code : Option String)
    (baseAmount : Int) (ctx : ResolveContext) (r : ResolvedFee)
    (hb : 0 ≤ baseAmount)
    (h : resolve coupons code baseAmount ctx = .ok r) : 0 ≤ r.finalAmount := by
  unfold resolve at h
  split at h
  · cases h
    exact le_refl 0
  · split at h
    · cases h
      exact hb
    · split at h
      · cases h
        exact hb
      · split at h
        · exact absurd h (by simp)
        · split at h
          · exact absurd h (by simp)
          · split at h
            · exact absurd h (by simp)
            · split at h
              · exact absurd h (by simp)
              · cases h
                exact le_max_right _ 0

/-- C2: for every base amount and valid percentage coupon with percentage
pct, the resolver returns finalAmount = baseAmount - floor(baseAmount*pct/100);
fixed discounts are capped at min(fixedAmount, baseAmount), full-waiver
discounts equal the base amount, and every successfully resolved final
amount is clamped to be non-negative. -/
theorem resolve_discount_correct (coupons : List Coupon) (s : String)
    (c : Coupon) (baseAmount : Int) (ctx : ResolveContext)
    (hb : 0 ≤ baseAmount)
    (hty : (ctx.registrationType == "school") = false)
    (hs : (s == "") = false)
    (hfind : lookupCoupon coupons s = some c)
    (hw : withinWindow c ctx.now = true)
    (ha : applicableTo c ctx = true)
    (hcap : capReached c = false) :
    resolve coupons (some s) baseAmount ctx =
      .ok { finalAmount := clampedFinal baseAmount (discountOf c.kind baseAmount),
            discount := discountOf c.kind baseAmount,
            couponApplied := some c.code } ∧
    (∀ pct, c.kind = .percentage pct → 0 ≤ pct → pct ≤ 100 →
      clampedFinal baseAmount (discountOf c.kind baseAmount) =
        baseAmount - baseAmount * pct / 100) ∧
    (∀ f, c.kind = .fixed f → discountOf c.kind baseAmount = min f baseAmount) ∧
    (c.kind = .fullWaiver → discountOf c.kind baseAmount = baseAmount) ∧
    (∀ code r, resolve coupons code baseAmount ctx = .ok r → 0 ≤ r.finalAmount) := by
  refine ⟨?_, ?_, ?_, ?_, ?_⟩
  · simp [resolve, hty, hs, hfind, hw, ha, hcap]
  · intro pct hk h0 h100
    rw [hk]
    simp only [discountOf, clampedFinal]
    rw [max_eq_left]
    have := pct_discount_le_base baseAmount pct hb h0 h100
    omega
  · intro f hk
    rw [hk]
    simp [discountOf]
  · intro hk
    rw [hk]
    simp [discountOf]
  · intro code r h
    exact resolve_ok_nonneg coupons code baseAmount ctx r hb h

/-- Witness for `resolve_discount_correct`: the EARLYBIRD 50 percent coupon
against a base amount of 9900 resolves to a final amount of 4950. -/
theorem resolve_discount_correct_witness :
    resolve demoCoupons (some "EARLYBIRD") 9900 studentCtx =
      .ok { finalAmount := clampedFinal 9900 (discountOf earlyBird.kind 9900),
            discount := discountOf earlyBird.kind 9900,
            couponApplied := some "EARLYBIRD" } ∧
    clampedFinal 9900 (discountOf earlyBird.kind 9900) = 4950 :=
  ⟨(resolve_discount_correct demoCoupons "EARLYBIRD" earlyBird 9900 studentCtx
      (by decide) (by decide) (by decide) (by decide) (by decide) (by decide)
      (by decide)).1,
   by decide⟩

/-- C8: for a non-null, non-empty code the resolver checks conditions in
a fixed order, short-circuiting on the first failure - unknown code gives
NotFound, then validity window gives Expired, then applicability gives
NotApplicable, then the redemption cap gives Exhausted - while a null or
empty code resolves to the base amount with no error; lookup is a
case-insensitive exact match, demonstrated on the demo store. -/
theorem resolve_error_order (coupons : List Coupon) (baseAmount : Int)
    (ctx : ResolveContext)
    (hty : (ctx.registrationType == "school") = false) :
    resolve coupons none baseAmount ctx =
      .ok { finalAmount := baseAmount, discount := 0, couponApplied := none } ∧
    resolve coupons (some "") baseAmount ctx =
      .ok { finalAmount := baseAmount, discount := 0, couponApplied := none } ∧
    (∀ s, (s == "") = false → lookupCoupon coupons s = none →
      resolve coupons (some s) baseAmount ctx = .error .NotFound) ∧
    (∀ s c, (s == "") = false → lookupCoupon coupons s = some c →
      withinWindow c ctx.now = false →
      resolve coupons (some s) baseAmount ctx = .error .Expired) ∧
    (∀ s c, (s == "") = false → lookupCoupon coupons s = some c →
      withinWindow c ctx.now = true → applicableTo c ctx = false →
      resolve coupons (some s) baseAmount ctx = .error .NotApplicable) ∧
    (∀ s c, (s == "") = false → lookupCoupon coupons s = some c →
      withinWindow c ctx.now = true → applicableTo c ctx = true →
      capReached c = true →
      resolve coupons (some s) baseAmount ctx = .error .Exhausted) ∧
    lookupCoupon demoCoupons "KeepStriding" = some keepStriding ∧
    lookupCoupon demoCoupons "KEEPSTRIDING" = some keepStriding := by
  refine ⟨?_, ?_, ?_, ?_, ?_, ?_, by decide, by decide⟩
  · simp [resolve, hty]
  · simp [resolve, hty]
  · intro s hs hfind
    simp [resolve, hty, hs, hfind]
  · intro s c hs hfind hw
    simp [resolve, hty, hs, hfind, hw]
  · intro s c hs hfind hw ha
    simp [resolve, hty, hs, hfind, hw, ha]
  · intro s c hs hfind hw ha hcap
    simp [resolve, hty, hs, hfind, hw, ha, hcap]

/-- Witness for `resolve_error_order`: an unknown code FAKE10 yields
NotFound on the demo store. -/
theorem resolve_error_order_witness :
    resolve demoCoupons (some "FAKE10") 9900 studentCtx = .error .NotFound :=
  (resolve_error_order demoCoupons 9900 studentCtx (by decide)).2.2.1 "FAKE10"
    (by decide) (by decide)

/-- C4: every registration of type "school" resolves to fee 0 regardless
of the coupon input, and the zero-amount confirmation still records an
audit entry. -/
theorem school_registrations_free (coupons : List Coupon) (code : Option String)
    (baseAmount : Int) (ctx : ResolveContext) (store : List PaymentOrder)
    (regId att : Nat) (resp : Nat → Except GatewayError String) (retries : Nat)
    (hty : ctx.registrationType = "school") :
    resolve coupons code baseAmount ctx =
      .ok { finalAmount := 0, discount := baseAmount, couponApplied := none } ∧
    (startPayment store regId att
        { finalAmount := 0, discount := baseAmount, couponApplied := none }
        resp retries).order =
      some { registrationId := regId, attempt := att, amount := 0,
             status := .Confirmed, gatewayOrderRef := none,
             couponApplied := none } ∧
    (startPayment store regId att
        { finalAmount := 0, discount := baseAmount, couponApplied := none }
        resp retries).gatewayCalls = 0 ∧
    (startPayment store regId att
        { finalAmount := 0, discount := baseAmount, couponApplied := none }
        resp retries).audit =
      [confirmAuditEntry
        { registrationId := regId, attempt := att, amount := 0,
          status := .Confirmed, gatewayOrderRef := none,
          couponApplied := none }] := by
  refine ⟨?_, rfl, rfl, rfl⟩
  simp [resolve, hty]

/-- Witness for `school_registrations_free`: a school registration with the
FAKE10 coupon input still resolves to fee 0 and is audited. -/
theorem school_registrations_free_witness :
    resolve demoCoupons (some "FAKE10") 9900 schoolCtx =
      .ok { finalAmount := 0, discount := 9900, couponApplied := none } :=
  (school_registrations_free demoCoupons (some "FAKE10") 9900 schoolCtx []
    3 1 (fun _ => .error .Unavailable) 2 (by decide)).1

/-- C3: base amount 9900 with the full-waiver coupon KEEPSTRIDING resolves
to final amount 0; the order transitions directly Created to Confirmed with
no gateway call, and exactly one audit entry of type "payment" with outcome
"success" and detail amount 0, coupon KEEPSTRIDING is recorded. -/
theorem keepstriding_zero_amount_flow :
    resolve demoCoupons (some "KEEPSTRIDING") 9900 studentCtx =
      .ok { finalAmount := 0, discount := 9900,
            couponApplied := some "KEEPSTRIDING" } ∧
    (startPayment [] 7 1
        { finalAmount := 0, discount := 9900,
          couponApplied := some "KEEPSTRIDING" }
        (fun _ => .error .Unavailable) 3).transitions =
      [(.Created, .Confirmed)] ∧
    (startPayment [] 7 1
        { finalAmount := 0, discount := 9900,
          couponApplied := some "KEEPSTRIDING" }
        (fun _ => .error .Unavailable) 3).gatewayCalls = 0 ∧
    (startPayment [] 7 1
        { finalAmount := 0, discount := 9900,
          couponApplied := some "KEEPSTRIDING" }
        (fun _ => .error .Unavailable) 3).order =
      some { registrationId := 7, attempt := 1, amount := 0,
             status := .Confirmed, gatewayOrderRef := none,
             couponApplied := some "KEEPSTRIDING" } ∧
    (startPayment [] 7 1
        { finalAmount := 0, discount := 9900,
          couponApplied := some "KEEPSTRIDING" }
        (fun _ => .error .Unavailable) 3).audit =
      [{ eventType := "payment", action := "confirm", outcome := "success",
         actor := "system", resourceType := "payment_order", resourceId := 7,
         detail := some { amount := 0, coupon := some "KEEPSTRIDING" } }] :=
  ⟨rfl, rfl, rfl, rfl, rfl⟩

/-- Incrementing a coupon's redemption count commutes with lookup: the
looked-up coupon is the original with its count bumped by one. -/
theorem lookup_incrRedemption (code : String) (cs : List Coupon) :
    lookupCoupon (incrRedemption code cs) code =
      (lookupCoupon cs code).map
        (fun c => { c with redemptionCount := c.redemptionCount + 1 }) := by
  induction cs with
  | nil => rfl
  | cons c cs ih =>
    by_cases h : sameCodeCI c.code code
    · simp [lookupCoupon, incrRedemption, List.find?_cons, h]
    · simp only [incrRedemption, List.map_cons, if_neg h] at *
      simp [lookupCoupon, List.find?_cons, h] at *
      exact ih

/-- First delivery of a verified success event against an AwaitingPayment
order: confirm, increment the coupon, mark the registration confirmed. -/
theorem deliverWebhook_confirm (ev : WebhookEvent) (s : ReconcilerState)
    (hst : s.order.status = .AwaitingPayment)
    (hm : matchesOrder ev s.order = true) (hk : ev.kind = .success) :
    deliverWebhook ev s =
      { order := { s.order with status := .Confirmed },
        coupons := applyCouponIncrement s.order s.coupons,
        registrationConfirmed := true,
        audit := s.audit ++ [confirmAuditEntry s.order] } := by
  simp [deliverWebhook, hm, hk, hst]

/-- Delivery against an already Confirmed order is a no-op except for one
audit entry tagged duplicate. -/
theorem deliverWebhook_duplicate (ev : WebhookEvent) (s : ReconcilerState)
    (hst : s.order.status = .Confirmed)
    (hm : matchesOrder ev s.order = true) (hk : ev.kind = .success) :
    deliverWebhook ev s =
      { s with audit := s.audit ++ [duplicateAuditEntry s.order] } := by
  simp [deliverWebhook, hm, hk, hst]

/-- Iterated delivery against a Confirmed order only appends duplicate
audit entries. -/
theorem deliverWebhook_iterate_duplicate (ev : WebhookEvent) (m : Nat) :
    ∀ t : ReconcilerState, t.order.status = .Confirmed →
      matchesOrder ev t.order = true → ev.kind = .success →
      (deliverWebhook ev)^[m] t =
        { t with audit := t.audit ++ List.replicate m (duplicateAuditEntry t.order) } := by
  induction m with
  | zero => intro t _ _ _; simp
  | succ m ih =>
    intro t hst hm hk
    rw [Function.iterate_succ_apply, deliverWebhook_duplicate ev t hst hm hk]
    rw [ih { t with audit := t.audit ++ [duplicateAuditEntry t.order] } hst hm hk]
    simp [List.replicate_succ]

/-- C1: delivering the same verified success webhook event n ≥ 1 times
against an AwaitingPayment order yields exactly one Confirmed transition
and exactly one coupon-count increment; every delivery after the first
changes no state and is audited as a duplicate (the final audit trail holds
one confirm entry followed by n-1 duplicate entries). -/
theorem webhook_delivery_idempotent (s : ReconcilerState) (ev : WebhookEvent)
    (n : Nat) (hst : s.order.status = .AwaitingPayment)
    (hm : matchesOrder ev s.order = true) (hk : ev.kind = .success)
    (hn : 1 ≤ n) :
    ((deliverWebhook ev)^[n] s).order = { s.order with status := .Confirmed } ∧
    ((deliverWebhook ev)^[n] s).coupons = applyCouponIncrement s.order s.coupons ∧
    ((deliverWebhook ev)^[n] s).registrationConfirmed = true ∧
    ((deliverWebhook ev)^[n] s).audit =
      s.audit ++ confirmAuditEntry s.order ::
        List.replicate (n - 1)
          (duplicateAuditEntry { s.order with status := .Confirmed }) ∧
    (∀ code c, s.order.couponApplied = some code →
      lookupCoupon s.coupons code = some c →
      lookupCoupon ((deliverWebhook ev)^[n] s).coupons code =
        some { c with redemptionCount := c.redemptionCount + 1 }) := by
  obtain ⟨m, rfl⟩ : ∃ m, n = m + 1 := ⟨n - 1, by omega⟩
  rw [Function.iterate_succ_apply, deliverWebhook_confirm ev s hst hm hk]
  have hrw := deliverWebhook_iterate_duplicate ev m
    { order := { s.order with status := .Confirmed },
      coupons := applyCouponIncrement s.order s.coupons,
      registrationConfirmed := true,
      audit := s.audit ++ [confirmAuditEntry s.order] } rfl hm hk
  rw [hrw]
  refine ⟨rfl, rfl, rfl, by simp, ?_⟩
  intro code c hcode hfound
  simp only [applyCouponIncrement, hcode]
  rw [lookup_incrRedemption, hfound]
  rfl

/-- Witness for `webhook_delivery_idempotent`: three deliveries of one
verified success event against a concrete AwaitingPayment order confirm it
once and bump KEEPSTRIDING's redemption count exactly once. -/
theorem webhook_delivery_idempotent_witness :
    (((deliverWebhook
        { kind := .success, orderRef := "ord_1", paymentRef := "pay_1",
          amount := 9900 })^[3]
      { order :=
          { registrationId := 7, attempt := 1, amount := 9900,
            status := .AwaitingPayment, gatewayOrderRef := some "ord_1",
            couponApplied := some "KEEPSTRIDING" },
        coupons := demoCoupons, registrationConfirmed := false,
        audit := [] }).order) =
      { registrationId := 7, attempt := 1, amount := 9900,
        status := .Confirmed, gatewayOrderRef := some "ord_1",
        couponApplied := some "KEEPSTRIDING" } ∧
    lookupCoupon
      (((deliverWebhook
          { kind := .success, orderRef := "ord_1", paymentRef := "pay_1",
            amount := 9900 })^[3]
        { order :=
            { registrationId := 7, attempt := 1, amount := 9900,
              status := .AwaitingPayment, gatewayOrderRef := some "ord_1",
              couponApplied := some "KEEPSTRIDING" },
          coupons := demoCoupons, registrationConfirmed := false,
          audit := [] }).coupons) "KEEPSTRIDING" =
      some { keepStriding with redemptionCount := 1 } := by
  have h := webhook_delivery_idempotent
    { order :=
        { registrationId := 7, attempt := 1, amount := 9900,
          status := .AwaitingPayment, gatewayOrderRef := some "ord_1",
          couponApplied := some "KEEPSTRIDING" },
      coupons := demoCoupons, registrationConfirmed := false, audit := [] }
    { kind := .success, orderRef := "ord_1", paymentRef := "pay_1",
      amount := 9900 }
    3 rfl (by decide) rfl (by decide)
  exact ⟨h.1, h.2.2.2.2 "KEEPSTRIDING" keepStriding rfl (by decide)⟩

/-- Any order accepted by the transition function was in a non-terminal
state. -/
theorem stepOrder_source_nonterminal (o : PaymentOrder) (ev : MachineEvent)
    (o2 : PaymentOrder) (h : stepOrder o ev = some o2) :
    o.status.isTerminal = false := by
  cases hs : o.status <;> cases ev <;>
    simp [stepOrder, hs, OrderStatus.isTerminal] at h ⊢

/-- Replacing a list element that satisfies `p` cannot increase the number
of elements satisfying `p`. -/
theorem countP_set_le (p : PaymentOrder → Bool) (l : List PaymentOrder) :
    ∀ (i : Nat) (a b : PaymentOrder), l.get? i = some a → p a = true →
      (l.set i b).countP p ≤ l.countP p := by
  induction l with
  | nil => intro i a b h _; simp at h
  | cons x xs ih =>
    intro i a b hget hpa
    cases i with
    | zero =>
      rw [List.get?_cons_zero] at hget
      injection hget with hxa
      subst hxa
      rw [List.set_cons_zero, List.countP_cons, List.countP_cons_of_pos _ _ hpa]
      split <;> omega
    | succ i =>
      rw [List.get?_cons_succ] at hget
      rw [List.set_cons_succ, List.countP_cons, List.countP_cons]
      have := ih i a b hget hpa
      omega

/-- Opening a new attempt requires every existing order to be Failed or
Expired, hence no order of the registration is active. -/
theorem activeCount_zero_of_canOpen (ro : RegOrders)
    (h : canOpenAttempt ro = true) : activeCount ro = 0 := by
  unfold activeCount
  rw [List.countP_eq_zero]
  intro o ho
  have hall := (List.all_eq_true.mp h) o ho
  cases hst : o.status <;> simp [hst] at hall ⊢ <;>
    simp [OrderStatus.isTerminal]

/-- C6: terminal states (Confirmed, Failed, Expired) admit no further
transition on an order, and the "at most one non-terminal order per
registration" invariant is preserved both by opening a new attempt (which
demands that every prior order is Failed or Expired) and by any machine
event applied to any order. -/
theorem order_lifecycle_invariants :
    (∀ (o : PaymentOrder) (ev : MachineEvent),
      o.status.isTerminal = true → stepOrder o ev = none) ∧
    (∀ (ro : RegOrders) (o : PaymentOrder) (ro2 : RegOrders),
      activeCount ro ≤ 1 → openAttempt ro o = some ro2 →
      activeCount ro2 ≤ 1) ∧
    (∀ (ro : RegOrders) (i : Nat) (ev : MachineEvent),
      activeCount ro ≤ 1 → activeCount (applyOrderEvent ro i ev) ≤ 1) := by
  refine ⟨?_, ?_, ?_⟩
  · intro o ev h
    cases hs : o.status <;> cases ev <;>
      simp [stepOrder, hs, OrderStatus.isTerminal] at h ⊢
  · intro ro o ro2 _ hopen
    unfold openAttempt at hopen
    split at hopen
    · rename_i hguard
      cases hopen
      have hcan : canOpenAttempt ro = true :=
        (Bool.and_eq_true_iff.mp hguard).1
      have hzero := activeCount_zero_of_canOpen ro hcan
      unfold activeCount at hzero ⊢
      simp only [List.countP_cons]
      split <;> omega
    · exact absurd hopen (by simp)
  · intro ro i ev hinv
    unfold applyOrderEvent
    cases hget : ro.orders.get? i with
    | none => simp only [hget]; exact hinv
    | some o =>
      cases hstep : stepOrder o ev with
      | none => simp only [hget, hstep]; exact hinv
      | some o2 =>
        simp only [hget, hstep]
        have hsrc := stepOrder_source_nonterminal o ev o2 hstep
        have hle := countP_set_le (fun x => !x.status.isTerminal) ro.orders i
          o o2 hget (by simp [hsrc])
        exact le_trans hle hinv

/-- Witness for `order_lifecycle_invariants`: a Confirmed order rejects a
further verified success event, and a registration whose only order failed
may open exactly one fresh active attempt. -/
theorem order_lifecycle_invariants_witness :
    stepOrder
      { registrationId := 7, attempt := 1, amount := 9900,
        status := .Confirmed, gatewayOrderRef := some "ord_1",
        couponApplied := none } .verifiedSuccess = none ∧
    activeCount
      { orders :=
          [{ registrationId := 7, attempt := 2, amount := 9900,
             status := .Created, gatewayOrderRef := none,
             couponApplied := none },
           { registrationId := 7, attempt := 1, amount := 9900,
             status := .Failed, gatewayOrderRef := some "ord_1",
             couponApplied := none }] } ≤ 1 := by
  refine ⟨order_lifecycle_invariants.1 _ _ (by decide), ?_⟩
  exact order_lifecycle_invariants.2.1
    { orders :=
        [{ registrationId := 7, attempt := 1, amount := 9900,
           status := .Failed, gatewayOrderRef := some "ord_1",
           couponApplied := none }] }
    { registrationId := 7, attempt := 2, amount := 9900,
      status := .Created, gatewayOrderRef := none, couponApplied := none }
    _ (by decide) rfl

/-- A gateway that is always Unavailable exhausts any retry budget with
`Unavailable`. -/
theorem createOrder_all_unavailable (resp : Nat → Except GatewayError String)
    (h : ∀ k, resp k = .error .Unavailable) :
    ∀ (budget k : Nat),
      (createOrderWithRetry resp k budget).1 = .error .Unavailable := by
  intro budget
  induction budget with
  | zero => intro k; simp [createOrderWithRetry, h k]
  | succ b ih =>
    intro k
    simp only [createOrderWithRetry, h k]
    exact ih (k + 1)

/-- C7: if `createOrder` fails - in particular after exhausting the bounded
retries against an always-Unavailable gateway - no PaymentOrder is
persisted for that attempt: the store is unchanged and no order is
returned. -/
theorem no_orphan_orders (store : List PaymentOrder) (regId att : Nat)
    (resolved : ResolvedFee) (resp : Nat → Except GatewayError String)
    (retries : Nat) (hpos : 0 < resolved.finalAmount) :
    (∀ e, (createOrderWithRetry resp 0 retries).1 = .error e →
      (startPayment store regId att resolved resp retries).order = none ∧
      (startPayment store regId att resolved resp retries).store = store ∧
      (startPayment store regId att resolved resp retries).audit =
        [gatewayFailureAuditEntry regId]) ∧
    ((∀ k, resp k = .error .Unavailable) →
      (createOrderWithRetry resp 0 retries).1 = .error .Unavailable) := by
  have hne : ¬ resolved.finalAmount = 0 := by omega
  constructor
  · intro e hfail
    rcases hp : createOrderWithRetry resp 0 retries with ⟨res, n⟩
    rw [hp] at hfail
    simp only at hfail
    subst hfail
    simp [startPayment, hne, hp]
  · intro hall
    exact createOrder_all_unavailable resp hall retries 0

/-- Witness for `no_orphan_orders`: three Unavailable answers exhaust a
retry budget of 2 and leave the store empty with no order. -/
theorem no_orphan_orders_witness :
    (startPayment [] 3 1
        { finalAmount := 9900, discount := 0, couponApplied := none }
        (fun _ => .error .Unavailable) 2).order = none ∧
    (startPayment [] 3 1
        { finalAmount := 9900, discount := 0, couponApplied := none }
        (fun _ => .error .Unavailable) 2).store = [] ∧
    (startPayment [] 3 1
        { finalAmount := 9900, discount := 0, couponApplied := none }
        (fun _ => .error .Unavailable) 2).audit =
      [gatewayFailureAuditEntry 3] :=
  (no_orphan_orders [] 3 1
    { finalAmount := 9900, discount := 0, couponApplied := none }
    (fun _ => .error .Unavailable) 2 (by decide)).1 .Unavailable rfl

/-- A sink that always fails drives `recordWithRetry` to the dead-letter
outcome for every retry budget. -/
theorem recordWithRetry_all_fail (sink : Nat → Bool)
    (h : ∀ k, sink k = false) :
    ∀ (budget k : Nat), recordWithRetry sink k budget = .deadLettered := by
  intro budget
  induction budget with
  | zero => intro k; simp [recordWithRetry, h k]
  | succ b ih =>
    intro k
    simp only [recordWithRetry, h k]
    exact ih (k + 1)

/-- C9: the audit write never propagates into or rolls back the business
operation - the order is Confirmed and the registration marked confirmed
whatever the audit sink does, and the business outcome is identical under
any two sinks; when every storage attempt fails, the bounded retries end in
the dead-letter sink holding the entry. -/
theorem audit_failure_isolated (o : PaymentOrder) (sink sink2 : Nat → Bool)
    (retries : Nat) :
    (confirmWithAudit o sink retries).order =
      { o with status := .Confirmed } ∧
    (confirmWithAudit o sink retries).registrationConfirmed = true ∧
    (confirmWithAudit o sink retries).order =
      (confirmWithAudit o sink2 retries).order ∧
    ((∀ k, sink k = false) →
      (confirmWithAudit o sink retries).auditOutcome = .deadLettered ∧
      (confirmWithAudit o sink retries).deadLetters = [confirmAuditEntry o]) := by
  have horder : ∀ (sk : Nat → Bool),
      (confirmWithAudit o sk retries).order = { o with status := .Confirmed } := by
    intro sk
    unfold confirmWithAudit
    cases recordWithRetry sk 0 retries <;> rfl
  have hconf : (confirmWithAudit o sink retries).registrationConfirmed = true := by
    unfold confirmWithAudit
    cases recordWithRetry sink 0 retries <;> rfl
  refine ⟨horder sink, hconf, (horder sink).trans (horder sink2).symm, ?_⟩
  intro hall
  have hdl := recordWithRetry_all_fail sink hall retries 0
  unfold confirmWithAudit
  rw [hdl]
  exact ⟨rfl, rfl⟩

/-- Witness for `audit_failure_isolated`: with a sink that always fails and
one that always succeeds, a concrete order is Confirmed either way and the
entry lands in the dead-letter sink of the failing run. -/
theorem audit_failure_isolated_witness :
    (confirmWithAudit
        { registrationId := 7, attempt := 1, amount := 9900,
          status := .AwaitingPayment, gatewayOrderRef := some "ord_1",
          couponApplied := none }
        (fun _ => false) 3).order =
      { registrationId := 7, attempt := 1, amount := 9900,
        status := .Confirmed, gatewayOrderRef := some "ord_1",
        couponApplied := none } ∧
    (confirmWithAudit
        { registrationId := 7, attempt := 1, amount := 9900,
          status := .AwaitingPayment, gatewayOrderRef := some "ord_1",
          couponApplied := none }
        (fun _ => false) 3).auditOutcome = .deadLettered :=
  ⟨(audit_failure_isolated
      { registrationId := 7, attempt := 1, amount := 9900,
        status := .AwaitingPayment, gatewayOrderRef := some "ord_1",
        couponApplied := none }
      (fun _ => false) (fun _ => true) 3).1,
   ((audit_failure_isolated
      { registrationId := 7, attempt := 1, amount := 9900,
        status := .AwaitingPayment, gatewayOrderRef := some "ord_1",
        couponApplied := none }
      (fun _ => false) (fun _ => true) 3).2.2.2 (fun _ => rfl)).1⟩

/-- C5: the shipped `register_student` endpoint creates the
StudentRegistration with status "confirmed" directly at form submission and
creates no PaymentOrder, even at the documented base fee of 9900 minor
units (fee > 0), contradicting the claim that a positive-fee registration
is confirmed only through its PaymentOrder's Confirmed transition. -/
theorem register_student_confirms_despite_positive_fee :
    (0 : Int) < 9900 ∧
    (register_student (.ok "user-1") "STU-1" 9900).registration =
      some { strideUserId := some "user-1", registrationCode := "STU-1",
             status := "confirmed" } ∧
    (register_student (.ok "user-1") "STU-1" 9900).ordersCreated = [] ∧
    (register_student (.ok "user-1") "STU-1" 9900).httpError = none :=
  ⟨by decide, rfl, rfl, rfl⟩

/-- C10 counterexample: under the documented Stride ID error-handling
policy, an HTTP 429 rate-limit failure of `create_stride_user` is not
swallowed - it aborts the request with HTTPException 503 and no
StudentRegistration is created. -/
theorem stride_429_aborts_registration :
    (register_student_stride_policy (.httpStatusError 429) "STU-1" 9900).registration
      = none ∧
    (register_student_stride_policy (.httpStatusError 429) "STU-1" 9900).httpError
      = some 503 :=
  ⟨rfl, rfl⟩

/-- C10 amended: the basic `register_student` handler swallows every
`create_stride_user` failure and still creates the StudentRegistration with
stride_user_id None, returning success; under the documented error-handling
policy the same holds for every failure except HTTP 429, which aborts the
request with a 503 and creates no registration. -/
theorem stride_failures_swallowed_except_rate_limit (r : StrideCallResult)
    (regCode : String) (fee : Int) (hErr : r.isErr = true) :
    (register_student r regCode fee).registration =
      some { strideUserId := none, registrationCode := regCode,
             status := "confirmed" } ∧
    (register_student r regCode fee).httpError = none ∧
    (r ≠ .httpStatusError 429 →
      register_student_stride_policy r regCode fee =
        { registration :=
            some { strideUserId := none, registrationCode := regCode,
                   status := "confirmed" },
          httpError := none, ordersCreated := [] }) ∧
    (r = .httpStatusError 429 →
      register_student_stride_policy r regCode fee =
        { registration := none, httpError := some 503,
          ordersCreated := [] }) := by
  cases r with
  | ok uid => simp [StrideCallResult.isErr] at hErr
  | timeoutError =>
    refine ⟨rfl, rfl, fun _ => rfl, fun h => ?_⟩
    simp at h
  | httpStatusError n =>
    refine ⟨rfl, rfl, ?_, ?_⟩
    · intro hne
      have hn : ¬ n = 429 := by
        intro h
        exact hne (by rw [h])
      simp [register_student_stride_policy, hn]
    · intro h
      have hn : n = 429 := by
        injection h
      simp [register_student_stride_policy, hn]

/-- Witness for `stride_failures_swallowed_except_rate_limit`: a Stride ID
timeout still yields a confirmed registration without a Stride ID under
both handlers. -/
theorem stride_failures_swallowed_witness :
    (register_student .timeoutError "STU-2" 9900).registration =
      some { strideUserId := none, registrationCode := "STU-2",
             status := "confirmed" } ∧
    register_student_stride_policy .timeoutError "STU-2" 9900 =
      { registration :=
          some { strideUserId := none, registrationCode := "STU-2",
                 status := "confirmed" },
        httpError := none, ordersCreated := [] } :=
  ⟨(stride_failures_swallowed_except_rate_limit .timeoutError "STU-2" 9900
      rfl).1,
   (stride_failures_swallowed_except_rate_limit .timeoutError "STU-2" 9900
      rfl).2.2.1 (by simp)⟩
